import Mathlib

/-!
Verification of the resilience/event core of the gspace library.

Shallow embedding of the Python sources:
  * `src/gspace/utils/rate_limiter.py`   (RateLimiter, RetryHandler)
  * `src/gspace/webhooks/webhook_handler.py` (WebhookHandler)
  * `src/gspace/auth/token_manager.py`   (FileTokenBackend, EncryptedTokenBackend)
  * `src/gspace/utils/batch_requests.py` (BatchRequestManager)

Python machine-level conventions used throughout:
  * Python `int` is unbounded, embedded as `Int` (or `Nat` where the value is
    structurally non-negative);
  * wall-clock instants (`time.time()`) and float durations are embedded as `ℚ`;
  * `int(x)` on a float truncates toward zero, embedded as `pyIntOfRat`;
  * calls into the standard library / third-party crypto (`json`, `hmac`,
    `hashlib`, `datetime.fromisoformat`, `cryptography.fernet`) are external to
    the repository and are embedded as explicit oracle parameters.
-/

namespace GSpace

/-! ## Rate limiter (src/gspace/utils/rate_limiter.py, class RateLimiter) -/

/-- Embedding of `RateLimitConfig` (rate_limiter.py lines 22-30). -/
structure RateLimitConfig where
  requests_per_second : Int
  burst_limit : Int
  window_size : ℚ
  quota_exceeded_codes : List Int

/-- The default `RateLimitConfig()` values from the dataclass. -/
def defaultRateLimitConfig : RateLimitConfig :=
  { requests_per_second := 10, burst_limit := 20, window_size := 1
    quota_exceeded_codes := [ 429, 503 ] }

/-- The mutable token-bucket state of a `RateLimiter` (lines 63-67). -/
structure BucketState where
  tokens : Int
  last_refill : ℚ
  window_start : ℚ
  request_count : Int

/-- State set up by `RateLimiter.__init__` at wall-clock time `now`. -/
def initBucket (config : RateLimitConfig) (now : ℚ) : BucketState :=
  { tokens := config.burst_limit, last_refill := now, window_start := now
    request_count := 0 }

/-- Python `int(q)` on a rational: truncation toward zero. -/
def pyIntOfRat (q : ℚ) : Int := if 0 ≤ q then ⌊q⌋ else -⌊-q⌋

/-- Embedding of `RateLimiter._refill_tokens` (lines 73-87), with the current
wall-clock time `now` passed explicitly.  Note the refill is gated on
`time_passed >= window_size`. -/
def refill_tokens (config : RateLimitConfig) (s : BucketState) (now : ℚ) :
    BucketState :=
  let time_passed := now - s.last_refill
  if config.window_size ≤ time_passed then
    let new_tokens := pyIntOfRat (time_passed * (config.requests_per_second : ℚ))
    let s1 : BucketState :=
      { s with tokens := min config.burst_limit (s.tokens + new_tokens)
               last_refill := now }
    if config.window_size ≤ now - s.window_start then
      { s1 with window_start := now, request_count := 0 }
    else s1
  else s

/-- One poll iteration of `RateLimiter.acquire_token` (lines 101-107): refill,
then take a token if one is available.  Returns the new state and whether a
token was acquired on this poll. -/
def acquire_step (config : RateLimitConfig) (s : BucketState) (now : ℚ) :
    BucketState × Bool :=
  let s1 := refill_tokens config s now
  if 0 < s1.tokens then
    ({ s1 with tokens := s1.tokens - 1, request_count := s1.request_count + 1 },
     true)
  else (s1, false)

/-- A bucket-touching operation together with the wall-clock time at which it
runs: either a bare refill (as performed by `get_wait_time` / `get_stats`) or
one `acquire_token` poll. -/
inductive LimiterOp
  | refillOp (now : ℚ)
  | acquireOp (now : ℚ)

/-- Run a finite sequence of rate-limiter operations from a state. -/
def runLimiter (config : RateLimitConfig) : BucketState → List LimiterOp → BucketState
  | s, [] => s
  | s, (LimiterOp.refillOp t) :: ops => runLimiter config (refill_tokens config s t) ops
  | s, (LimiterOp.acquireOp t) :: ops => runLimiter config (acquire_step config s t).1 ops

/-! ## Retry handler (src/gspace/utils/rate_limiter.py, class RetryHandler) -/

/-- Kinds of Python exception values that can reach `RetryHandler.should_retry`.
Each constructor stands for an instance of the named built-in exception
class. -/
inductive PyErr
  | connectionError
  | timeoutError
  | osError
  | valueError
  | typeError
  | keyError
deriving DecidableEq

/-- The Python exception classes named in `should_retry`'s
`retryable_error_types` tuple (rate_limiter.py lines 231-236). -/
inductive PyExcClass
  | connectionErrorCls
  | timeoutErrorCls
  | osErrorCls
  | exceptionCls
deriving DecidableEq

/-- Python `isinstance`, restricted to the classes above.  The table follows
the real subclass hierarchy: `ConnectionError <: OSError <: Exception`,
`TimeoutError <: OSError <: Exception`, and every listed kind is an instance of
`Exception`. -/
def isinstanceOf : PyErr → PyExcClass → Bool
  | PyErr.connectionError, PyExcClass.connectionErrorCls => true
  | PyErr.connectionError, PyExcClass.osErrorCls => true
  | PyErr.timeoutError, PyExcClass.timeoutErrorCls => true
  | PyErr.timeoutError, PyExcClass.osErrorCls => true
  | PyErr.osError, PyExcClass.osErrorCls => true
  | _, PyExcClass.exceptionCls => true
  | _, _ => false

/-- The tuple `retryable_error_types` from `should_retry` (lines 231-236):
`(ConnectionError, TimeoutError, OSError, Exception)` — the last entry is the
source's "Generic fallback". -/
def retryable_error_types : List PyExcClass :=
  [ PyExcClass.connectionErrorCls, PyExcClass.timeoutErrorCls,
    PyExcClass.osErrorCls, PyExcClass.exceptionCls ]

/-- Embedding of `RetryConfig` (rate_limiter.py lines 33-44); only the fields
the claims touch are carried (`max_retries` is `int >= 0` per the spec, so it
is embedded as `Nat`). -/
structure RetryConfig where
  max_retries : Nat
  retryable_errors : List Int

/-- The default `RetryConfig()` field values from the dataclass. -/
def defaultRetryConfig : RetryConfig :=
  { max_retries := 3, retryable_errors := [ 429, 500, 502, 503, 504 ] }

/-- Python truthiness of the optional `status_code` argument (`None` and `0`
are falsy). -/
def statusTruthy : Option Int → Bool
  | none => false
  | some c => c != 0

/-- Embedding of `RetryHandler.should_retry` (rate_limiter.py lines 215-238):
first the status-code check `if status_code and status_code in
self.config.retryable_errors`, then `isinstance(error, retryable_error_types)`. -/
def should_retry (config : RetryConfig) (error : PyErr) (status_code : Option Int) :
    Bool :=
  if statusTruthy status_code &&
      config.retryable_errors.contains (status_code.getD 0) then true
  else retryable_error_types.any (fun c => isinstanceOf error c)

/-- The loop body of `RetryHandler.execute_with_retry` (lines 255-281).  The
work unit is embedded as a function from the 1-based attempt number to either a
result or the exception raised on that attempt.  The pair returned is the
overall outcome (`Except.error` models a raised exception; its `Option`
payload models the `raise last_exception` after the loop, which re-raises
`None` if the loop body never ran) together with the number of attempts
performed.  `fuel` counts the iterations remaining in
`range(1, max_retries + 2)`. -/
def retryGo {α : Type} (config : RetryConfig) (work : Nat → Except PyErr α) :
    Nat → Nat → Option PyErr → Except (Option PyErr) α × Nat
  | 0, attempt, last => (Except.error last, attempt - 1)
  | fuel + 1, attempt, _last =>
    match work attempt with
    | Except.ok v => (Except.ok v, attempt)
    | Except.error e =>
      if config.max_retries < attempt || !(should_retry config e none) then
        (Except.error (some e), attempt)
      else retryGo config work fuel (attempt + 1) (some e)

/-- Embedding of `RetryHandler.execute_with_retry` (rate_limiter.py lines
240-281): attempts are numbered from 1 over `range(1, max_retries + 2)`. -/
def execute_with_retry {α : Type} (config : RetryConfig)
    (work : Nat → Except PyErr α) : Except (Option PyErr) α × Nat :=
  retryGo config work (config.max_retries + 1) 1 none

/-! ## JSON values and webhook handler (src/gspace/webhooks/webhook_handler.py) -/

/-- A decoded JSON value, as produced by Python's `json.loads`. -/
inductive JVal
  | jnull
  | jbool (b : Bool)
  | jnum (n : Int)
  | jstr (s : String)
  | jarr (xs : List JVal)
  | jobj (kvs : List (String × JVal))

/-- Python `dict.get(k)` on a decoded JSON object (first binding wins; JSON
objects decoded by `json.loads` have unique keys). -/
def jObjGet (kvs : List (String × JVal)) (k : String) : Option JVal :=
  (kvs.find? (fun p => p.1 == k)).map (fun p => p.2)

/-- Python `dict.get(k, d)` on a decoded JSON object. -/
def jObjGetD (kvs : List (String × JVal)) (k : String) (d : JVal) : JVal :=
  (jObjGet kvs k).getD d

/-- The ten members of the `WebhookEventType` enum
(webhook_handler.py lines 13-25). -/
inductive WebhookEventType
  | calendar_event_created
  | calendar_event_updated
  | calendar_event_deleted
  | gmail_message_added
  | gmail_message_deleted
  | drive_file_created
  | drive_file_updated
  | drive_file_deleted
  | sheets_spreadsheet_updated
  | docs_document_updated
deriving DecidableEq

/-- Python `WebhookEventType(s)`: the enum member whose value is `s`, or the
`ValueError` case (`none`) when no member matches. -/
def webhookEventTypeOfString (s : String) : Option WebhookEventType :=
  if s = "calendar.event.created" then some WebhookEventType.calendar_event_created
  else if s = "calendar.event.updated" then some WebhookEventType.calendar_event_updated
  else if s = "calendar.event.deleted" then some WebhookEventType.calendar_event_deleted
  else if s = "gmail.message.added" then some WebhookEventType.gmail_message_added
  else if s = "gmail.message.deleted" then some WebhookEventType.gmail_message_deleted
  else if s = "drive.file.created" then some WebhookEventType.drive_file_created
  else if s = "drive.file.updated" then some WebhookEventType.drive_file_updated
  else if s = "drive.file.deleted" then some WebhookEventType.drive_file_deleted
  else if s = "sheets.spreadsheet.updated" then some WebhookEventType.sheets_spreadsheet_updated
  else if s = "docs.document.updated" then some WebhookEventType.docs_document_updated
  else none

/-- Embedding of the `WebhookEvent` dataclass (webhook_handler.py lines
28-38).  In the source the `event_type` field is annotated `WebhookEventType`
but `parse_webhook` assigns `None` to it for unknown event-type strings
(line 158), so the faithful field type is optional.  Timestamps are embedded
as `Int` (an abstract instant). -/
structure WebhookEventM where
  event_type : Option WebhookEventType
  resource_id : JVal
  resource_uri : JVal
  timestamp : Int
  payload : JVal
  user_id : Option JVal
  domain : Option JVal

/-- Oracles for the standard-library calls made by the webhook handler:
`hmac.new(secret, body, hashlib.sha256).hexdigest()`,
`datetime.fromisoformat` (`none` models a raised `ValueError`), and
`datetime.utcnow()`. -/
structure Externals where
  hmac_sha256_hex : String → String → String
  fromisoformat : String → Option Int
  utcnow : Int

/-- A request body together with the outcome of `json.loads` on it (`none`
models a raised `JSONDecodeError`). -/
structure RawBody where
  text : String
  json : Option JVal

/-- Python `str.lower()`, embedded character-wise. -/
def pyLower (s : String) : String := String.mk (s.data.map Char.toLower)

/-- Embedding of `WebhookHandler.verify_webhook` (webhook_handler.py lines
87-120).  A missing or empty `verification_token` is falsy, so verification is
skipped and the call returns `true`; an unsupported algorithm returns `false`;
otherwise `hmac.compare_digest` compares the hex HMAC of the body with the
signature (the constant-time property of the comparison is a timing concern,
value-wise it is string equality). -/
def verify_webhook (ext : Externals) (verification_token : Option String)
    (request_body : String) (signature : String) (algorithm : String) : Bool :=
  match verification_token with
  | none => true
  | some tok =>
    if tok = "" then true
    else if pyLower algorithm = "sha256" then
      ext.hmac_sha256_hex tok request_body == signature
    else false

/-- Embedding of `WebhookHandler.parse_webhook` (webhook_handler.py lines
122-180).  `none` models every caught exception path: JSON decode failure, a
non-object JSON document (`data.get` raises `AttributeError`), and a
non-string `timestamp` value (`.replace` raises `AttributeError`); all are
swallowed by the two `except` clauses and become `return None`.  A bad
timestamp *string* only raises `ValueError` from `fromisoformat`, which is
caught locally and replaced by `datetime.utcnow()`; an unknown event-type
string only raises `ValueError` from the enum constructor, which is caught
locally and replaced by `None`. -/
def parse_webhook (ext : Externals) (body : RawBody) : Option WebhookEventM :=
  match body.json with
  | some (JVal.jobj data) =>
    let event_type_str := jObjGetD data "event_type" (JVal.jstr "")
    let resource_id := jObjGetD data "resource_id" (JVal.jstr "")
    let resource_uri := jObjGetD data "resource_uri" (JVal.jstr "")
    let timestamp_val := jObjGetD data "timestamp" (JVal.jstr "")
    let payload := jObjGetD data "payload" (JVal.jobj [])
    let user_id := jObjGet data "user_id"
    let domain := jObjGet data "domain"
    match timestamp_val with
    | JVal.jstr ts =>
      let timestamp := (ext.fromisoformat (ts.replace "Z" "+00:00")).getD ext.utcnow
      let event_type :=
        match event_type_str with
        | JVal.jstr s => webhookEventTypeOfString s
        | _ => none
      some { event_type := event_type, resource_id := resource_id
             resource_uri := resource_uri, timestamp := timestamp
             payload := payload, user_id := user_id, domain := domain }
    | _ => none
  | _ => none

/-- The registry state of a `WebhookHandler`: the verification token, the
`event_handlers` dict (each registered event type with its number of
handlers), and whether a fallback handler is registered.  Handler callbacks
are opaque side effects; dispatch is recorded as the branch taken. -/
structure WebhookState where
  verification_token : Option String
  event_handlers : List (WebhookEventType × Nat)
  has_fallback : Bool

/-- Which dispatch branch the routing block of `handle_webhook` (lines
209-224) takes for an event. -/
inductive DispatchTarget
  | toHandlers (et : WebhookEventType) (n : Nat)
  | toFallback
  | unhandled
deriving DecidableEq

/-- The routing block of `handle_webhook` (webhook_handler.py lines 209-224):
`if event.event_type and event.event_type in self.event_handlers` runs the
registered handlers, `elif self.fallback_handler` runs the fallback, else the
event is only logged.  Handler exceptions are caught inside the loop and do
not alter the branch or the response. -/
def route_event (st : WebhookState) (ev : WebhookEventM) : DispatchTarget :=
  match ev.event_type with
  | some et =>
    match st.event_handlers.find? (fun p => p.1 == et) with
    | some p => DispatchTarget.toHandlers et p.2
    | none => if st.has_fallback then DispatchTarget.toFallback else DispatchTarget.unhandled
  | none => if st.has_fallback then DispatchTarget.toFallback else DispatchTarget.unhandled

/-- A value in the response dict returned by `handle_webhook`. -/
inductive PyVal
  | pstr (s : String)
  | pint (n : Int)
  | pbool (b : Bool)
deriving DecidableEq

/-- The `{"status": "success", "event_processed": True}` response
(webhook_handler.py line 226). -/
def successResponse : List (String × PyVal) :=
  [ ("status", PyVal.pstr "success"), ("event_processed", PyVal.pbool true) ]

/-- The `{"error": "Invalid signature", "status": 401}` response (line 202). -/
def invalidSignatureResponse : List (String × PyVal) :=
  [ ("error", PyVal.pstr "Invalid signature"), ("status", PyVal.pint 401) ]

/-- The `{"error": "Failed to parse webhook", "status": 400}` response
(line 207). -/
def parseFailureResponse : List (String × PyVal) :=
  [ ("error", PyVal.pstr "Failed to parse webhook"), ("status", PyVal.pint 400) ]

/-- The `{"error": str(e), "status": 500}` response (line 230), returned by
the outer `except Exception` catch-all. -/
def internalErrorResponse (msg : String) : List (String × PyVal) :=
  [ ("error", PyVal.pstr msg), ("status", PyVal.pint 500) ]

/-- Python `headers.get(k, d)` on the request-header dict. -/
def headersGetD (headers : List (String × String)) (k d : String) : String :=
  (((headers.find? (fun p => p.1 == k))).map (fun p => p.2)).getD d

/-- The parse-and-dispatch tail of `handle_webhook` (webhook_handler.py lines
204-226), shared by the verified and the unverified path: parse the body; on
failure return the 400 response, otherwise route the event and return the
success response.  The second component records the dispatch branch taken
(`none` when dispatch never ran). -/
def parse_and_dispatch (ext : Externals) (st : WebhookState) (body : RawBody) :
    List (String × PyVal) × Option DispatchTarget :=
  match parse_webhook ext body with
  | none => (parseFailureResponse, none)
  | some ev => (successResponse, some (route_event st ev))

/-- Embedding of `WebhookHandler.handle_webhook` (webhook_handler.py lines
182-230): read the `X-Goog-Signature` header with default `""`; if it is
non-empty and `verify_webhook` rejects it, return the 401 response; otherwise
parse and dispatch.  The outer `except Exception` catch-all (the 500 response)
has no reachable trigger in this pure embedding. -/
def handle_webhook (ext : Externals) (st : WebhookState) (request_body : RawBody)
    (headers : List (String × String)) :
    List (String × PyVal) × Option DispatchTarget :=
  if headersGetD headers "X-Goog-Signature" "" != "" &&
      !(verify_webhook ext st.verification_token request_body.text
          (headersGetD headers "X-Goog-Signature" "") "sha256") then
    (invalidSignatureResponse, none)
  else
    parse_and_dispatch ext st request_body

/-! ## Token storage backends (src/gspace/auth/token_manager.py) -/

/-- Oracles for the externals used by `EncryptedTokenBackend.load_tokens`:
the filesystem (path to file bytes, `none` when `file_path.exists()` is
false), `Fernet.decrypt` (`none` models a raised `InvalidToken`, i.e. a
corrupt or undecryptable envelope), and `json.loads` composed with
`bytes.decode` (`none` models a decode failure). -/
structure EncBackendExt where
  read_file : String → Option (List Nat)
  fernet_decrypt : List Nat → Option (List Nat)
  json_loads_bytes : List Nat → Option JVal

/-- The file path `self.storage_dir / f"{user_id}.enc"` relative to the
storage directory. -/
def enc_file_path (user_id : String) : String := user_id ++ ".enc"

/-- Embedding of `EncryptedTokenBackend.load_tokens` (token_manager.py lines
150-169).  A missing file returns `None` before the read; any exception in
the read/decrypt/decode sequence is caught by the `except Exception` clause
and also becomes `None`.  The function's result type has no error case at
all: `none` is the only failure result. -/
def EncryptedTokenBackend.load_tokens (ext : EncBackendExt) (user_id : String) :
    Option JVal :=
  match ext.read_file (enc_file_path user_id) with
  | none => none
  | some encrypted_data =>
    match ext.fernet_decrypt encrypted_data with
    | none => none
    | some decrypted_data =>
      match ext.json_loads_bytes decrypted_data with
      | none => none
      | some tokens => some tokens

/-- Oracles for `FileTokenBackend.load_tokens`: the filesystem (path to text)
and `json.load` (`none` models a raised `JSONDecodeError`). -/
structure FileBackendExt where
  read_file : String → Option String
  json_loads : String → Option JVal

/-- The file path `self.storage_dir / f"{user_id}.json"`. -/
def json_file_path (user_id : String) : String := user_id ++ ".json"

/-- Embedding of `FileTokenBackend.load_tokens` (token_manager.py lines
56-69): missing file returns `None`; a JSON decode failure is caught by
`except Exception` and also becomes `None`. -/
def FileTokenBackend.load_tokens (ext : FileBackendExt) (user_id : String) :
    Option JVal :=
  match ext.read_file (json_file_path user_id) with
  | none => none
  | some contents =>
    match ext.json_loads contents with
    | none => none
    | some tokens => some tokens

/-! ## Python string primitives over character lists

The batch codec (src/gspace/utils/batch_requests.py) manipulates its wire
payload with `str.split`, `str.find`, `str.strip`, `str.startswith` and
`int()`.  These are embedded over `List Char`, with Python semantics. -/

/-- Whether `pat` is a prefix of `s`. -/
def leadsWith : List Char → List Char → Bool
  | [], _ => true
  | _ :: _, [] => false
  | p :: ps, c :: cs => p == c && leadsWith ps cs

/-- Index of the first occurrence of `pat` in `s` at or after offset `i`. -/
def findSubAux (pat : List Char) : List Char → Nat → Option Nat
  | [], i => if pat = [] then some i else none
  | c :: cs, i =>
    if leadsWith pat (c :: cs) then some i else findSubAux pat cs (i + 1)

/-- Python `s.find(pat)`, with `none` in place of `-1`. -/
def pyFind (s pat : List Char) : Option Nat := findSubAux pat s 0

/-- Python `pat in s` (substring containment). -/
def containsSub (s pat : List Char) : Bool := (pyFind s pat).isSome

/-- Worker for `pySplit`; `fuel` bounds the scan (one unit per character
consumed, so `s.length + 1` always suffices for a non-empty separator). -/
def splitOnAux (sep : List Char) : Nat → List Char → List Char → List (List Char)
  | 0, s, acc => [ acc.reverse ++ s ]
  | _ + 1, [], acc => [ acc.reverse ]
  | fuel + 1, c :: cs, acc =>
    if leadsWith sep (c :: cs) then
      acc.reverse :: splitOnAux sep fuel (List.drop sep.length (c :: cs)) []
    else splitOnAux sep fuel cs (c :: acc)

/-- Python `s.split(sep)` for a non-empty separator. -/
def pySplit (s sep : List Char) : List (List Char) :=
  splitOnAux sep (s.length + 1) s []

/-- Python `s.split(sep, 1)` (at most one split). -/
def pySplit1 (s sep : List Char) : List (List Char) :=
  match pyFind s sep with
  | none => [ s ]
  | some i => [ s.take i, List.drop (i + sep.length) s ]

/-- Python `s.strip()` (remove leading and trailing whitespace). -/
def pyStrip (s : List Char) : List Char :=
  ((s.dropWhile Char.isWhitespace).reverse.dropWhile Char.isWhitespace).reverse

/-- Python `s.split()` (split on whitespace runs, no empty fields). -/
def pySplitWsAux : List Char → List Char → List (List Char)
  | [], acc => if acc = [] then [] else [ acc.reverse ]
  | c :: cs, acc =>
    if Char.isWhitespace c then
      if acc = [] then pySplitWsAux cs []
      else acc.reverse :: pySplitWsAux cs []
    else pySplitWsAux cs (c :: acc)

/-- Python `s.split()` with no separator argument. -/
def pySplitWs (s : List Char) : List (List Char) := pySplitWsAux s []

/-- Decimal digit accumulator for `pyToInt`. -/
def digitsValAux : List Char → Nat → Option Nat
  | [], acc => some acc
  | c :: cs, acc =>
    if c.isDigit then digitsValAux cs (acc * 10 + (c.toNat - 48)) else none

/-- Value of a non-empty all-digit string. -/
def digitsVal (ds : List Char) : Option Nat :=
  if ds = [] then none else digitsValAux ds 0

/-- Python `int(s)` on a string: optional surrounding whitespace, an optional
sign, then decimal digits; `none` models a raised `ValueError`. -/
def pyToInt (s : List Char) : Option Int :=
  match pyStrip s with
  | '-' :: ds => (digitsVal ds).map (fun n => -(n : Int))
  | '+' :: ds => (digitsVal ds).map (fun n => (n : Int))
  | ds => (digitsVal ds).map (fun n => (n : Int))

/-! ## Batch codec (src/gspace/utils/batch_requests.py) -/

/-- The `BatchRequestType` enum (batch_requests.py lines 9-16). -/
inductive BatchRequestType
  | get
  | post
  | put
  | delete
  | patch
deriving DecidableEq

/-- The `.value` string of each `BatchRequestType` member. -/
def BatchRequestType.value : BatchRequestType → String
  | BatchRequestType.get => "GET"
  | BatchRequestType.post => "POST"
  | BatchRequestType.put => "PUT"
  | BatchRequestType.delete => "DELETE"
  | BatchRequestType.patch => "PATCH"

/-- Embedding of the `BatchRequest` dataclass (batch_requests.py lines 19-28). -/
structure BatchRequest where
  request_id : String
  method : BatchRequestType
  url : String
  headers : List (String × String)
  body : Option JVal
  timeout : Option Int

/-- Python truthiness of a decoded JSON value (`if request.body:`). -/
def jTruthy : JVal → Bool
  | JVal.jnull => false
  | JVal.jbool b => b
  | JVal.jnum n => n != 0
  | JVal.jstr s => s != ""
  | JVal.jarr xs => !xs.isEmpty
  | JVal.jobj kvs => !kvs.isEmpty

/-- The `"\r\n".join(f"{k}: {v}" ...)` header block of one part
(batch_requests.py line 207). -/
def headerLines (hs : List (String × String)) : String :=
  String.intercalate "\r\n" (hs.map (fun p => p.1 ++ ": " ++ p.2))

/-- One part of the batch payload (batch_requests.py lines 205-224).  The
f-string template is a triple-quoted Python literal, so the line breaks
inside a part are bare `"\n"`, while the parts themselves are joined with
`"\r\n"`.  `json.dumps` is an external oracle. -/
def partOf (jdumps : JVal → String) (r : BatchRequest) : String :=
  let headers0 := headerLines r.headers
  let headers := if headers0 != "" then headers0 ++ "\r\n" else headers0
  let body :=
    match r.body with
    | some b => if jTruthy b then jdumps b else ""
    | none => ""
  "--batch_boundary\nContent-Type: application/http\n\n" ++
    r.method.value ++ " " ++ r.url ++ " HTTP/1.1\n" ++ headers ++
    "Content-Length: " ++ toString body.length ++ "\n\n" ++ body

/-- Embedding of `BatchRequestManager.create_batch_payload` (batch_requests.py
lines 192-229): raises `ValueError` (`Except.error`) on an empty request
list, otherwise joins the parts and the closing boundary with `"\r\n"`. -/
def create_batch_payload (jdumps : JVal → String) (requests : List BatchRequest) :
    Except String String :=
  if requests.isEmpty then Except.error "No requests in batch"
  else Except.ok (String.intercalate "\r\n"
    ((requests.map (partOf jdumps)) ++ [ "--batch_boundary--" ]))

/-- The parsed body field of a `BatchResponse`: `None`, decoded JSON, or the
raw text when `json.loads` fails (batch_requests.py lines 287-293). -/
inductive PBody
  | noneB
  | jsonB (j : JVal)
  | textB (s : List Char)

/-- Embedding of the `BatchResponse` dataclass (batch_requests.py lines
31-39), with the string fields as character lists.  The `error` field holds
the raw value taken from the decoded body (the source assigns it without
converting to `str`). -/
structure BatchResponseM where
  request_id : List Char
  status_code : Int
  headers : List (List Char × List Char)
  body : PBody
  error : Option JVal

/-- Python dict assignment `d[k] = v`: overwrite an existing binding, else
append. -/
def dictSet (hs : List (List Char × List Char)) (k v : List Char) :
    List (List Char × List Char) :=
  if hs.any (fun p => p.1 == k) then
    hs.map (fun p => if p.1 == k then (k, v) else p)
  else hs ++ [ (k, v) ]

/-- Python `d.get(k)` on a parsed header dict. -/
def dictGet (hs : List (List Char × List Char)) (k : List Char) :
    Option (List Char) :=
  (hs.find? (fun p => p.1 == k)).map (fun p => p.2)

/-- The header-parsing loop of `parse_batch_response` (batch_requests.py lines
280-284): for each line after the status line, split once on `":"` and strip
both sides. -/
def parseHeaders (lines : List (List Char)) : List (List Char × List Char) :=
  lines.foldl
    (fun hs line =>
      if containsSub line [ ':' ] then
        match pySplit1 line [ ':' ] with
        | [ k, v ] => dictSet hs (pyStrip k) (pyStrip v)
        | _ => hs
      else hs)
    []

/-- Python `str(x)` for the non-dict bodies that can reach the error field
(batch_requests.py line 300): `str(None)` is `"None"`, `str` of a string is
itself; other decoded JSON shapes are rendered by their Python repr (the
exact rendering is unreachable in the theorems below). -/
def pyStrOfBody : PBody → List Char
  | PBody.noneB => [ 'N', 'o', 'n', 'e' ]
  | PBody.textB s => s
  | PBody.jsonB (JVal.jstr s) => s.data
  | PBody.jsonB _ => []

/-- The error-extraction step of `parse_batch_response` (batch_requests.py
lines 296-301).  Returns `none` when the Python expression raises (a non-dict
value under the `"error"` key has no `.get`, an `AttributeError` that the
surrounding `except` catches by skipping the part); otherwise the computed
`error` field. -/
def errorOf (status_code : Int) (body : PBody) : Option (Option JVal) :=
  if 400 ≤ status_code then
    match body with
    | PBody.jsonB (JVal.jobj kvs) =>
      match jObjGet kvs "error" with
      | none => some (some (JVal.jstr "Unknown error"))
      | some (JVal.jobj ekvs) =>
        some (some ((jObjGet ekvs "message").getD (JVal.jstr "Unknown error")))
      | some _ => none
    | b => some (some (JVal.jstr (String.mk (pyStrOfBody b))))
  else some none

/-- Processing of one boundary-delimited part inside the response-parsing
loop of `parse_batch_response` (batch_requests.py lines 258-317).  `none`
models both the explicit `continue` paths and any caught exception;
`num_so_far` is `len(responses)` at the time the part is processed, used by
the positional `request_id` fallback. -/
def processPart (jloads : List Char → Option JVal) (num_so_far : Nat)
    (part : List Char) : Option BatchResponseM :=
  if pyStrip part = [] || pyStrip part = [ '-', '-' ] then none
  else
    match pyFind part ("HTTP/1.1".data) with
    | none => none
    | some http_start =>
      let tail := List.drop http_start part
      let status_line := (pySplit tail ("\r\n".data)).headD []
      match (pySplitWs status_line).get? 1 with
      | none => none
      | some status_tok =>
        match pyToInt status_tok with
        | none => none
        | some status_code =>
          match pySplit1 tail ("\r\n\r\n".data) with
          | [ headers_text, body_text ] =>
            let headers := parseHeaders ((pySplit headers_text ("\r\n".data)).drop 1)
            let body : PBody :=
              if pyStrip body_text != [] then
                match jloads body_text with
                | some j => PBody.jsonB j
                | none => PBody.textB body_text
              else PBody.noneB
            match errorOf status_code body with
            | none => none
            | some err =>
              let request_id :=
                (dictGet headers ("X-Request-ID".data)).getD
                  (("req_" ++ toString num_so_far).data)
              some { request_id := request_id, status_code := status_code
                     headers := headers, body := body, error := err }
          | _ => none

/-- Embedding of `BatchRequestManager.parse_batch_response` (batch_requests.py
lines 231-319): find the boundary as the first `"\r\n"`-line that starts with
`"--"` and contains `"boundary"`; split the whole body on it; process each
part, skipping the ones that fail. -/
def parse_batch_response (jloads : List Char → Option JVal)
    (response_body : List Char) : List BatchResponseM :=
  let lines := pySplit response_body ("\r\n".data)
  match lines.find? (fun l => leadsWith ("--".data) l && containsSub l ("boundary".data)) with
  | none => []
  | some boundary =>
    let parts := pySplit response_body boundary
    parts.foldl
      (fun responses part =>
        match processPart jloads responses.length part with
        | none => responses
        | some r => responses ++ [ r ])
      []

/-! ## Concrete fixtures used by counterexamples and witnesses -/

/-- Trivial external oracles: an HMAC that always returns `""`, a timestamp
parser that always raises `ValueError`, and `utcnow() = 0`. -/
def extConc : Externals :=
  { hmac_sha256_hex := fun _ _ => "", fromisoformat := fun _ => none, utcnow := 0 }

/-- External oracles whose HMAC is the injective pairing
`secret ++ ":" ++ body`, so distinct bodies have distinct digests. -/
def extHW : Externals :=
  { hmac_sha256_hex := fun s b => s ++ ":" ++ b, fromisoformat := fun _ => none
    utcnow := 0 }

/-- A webhook handler state with a configured secret, no registered handlers
and no fallback. -/
def wstConc : WebhookState :=
  { verification_token := some "secret", event_handlers := [], has_fallback := false }

/-- The request body `"{}"`, which JSON-decodes to the empty object. -/
def bodyEmptyObj : RawBody := { text := "\x7b\x7d", json := some (JVal.jobj []) }

/-- A request body whose `event_type` is the unknown string `"bogus"`. -/
def bodyC3 : RawBody :=
  { text := "\x7b\"event_type\": \"bogus\"\x7d"
    json := some (JVal.jobj [ ("event_type", JVal.jstr "bogus") ]) }

/-- A bucket that is empty with `last_refill = 0`. -/
def bstC4 : BucketState :=
  { tokens := 0, last_refill := 0, window_start := 0, request_count := 0 }

/-- An encrypted-backend world with no files at all. -/
def encMissingExt : EncBackendExt :=
  { read_file := fun _ => none, fernet_decrypt := fun _ => none
    json_loads_bytes := fun _ => none }

/-- An encrypted-backend world where `alice.enc` exists but its envelope does
not authenticate: `Fernet.decrypt` raises `InvalidToken` on it (one tampered
byte of the stored file). -/
def encCorruptExt : EncBackendExt :=
  { read_file := fun p => if p = "alice.enc" then some [ 0 ] else none
    fernet_decrypt := fun _ => none, json_loads_bytes := fun _ => none }

/-- A plain-backend world with no files at all. -/
def fileMissingExt : FileBackendExt :=
  { read_file := fun _ => none, json_loads := fun _ => none }

/-- A plain-backend world where `bob.json` exists but holds malformed JSON. -/
def fileCorruptExt : FileBackendExt :=
  { read_file := fun p => if p = "bob.json" then some "not json" else none
    json_loads := fun _ => none }

/-- A `json.dumps` oracle (never consulted: the fixture requests carry no
body). -/
def jd0 : JVal → String := fun _ => ""

/-- A `json.loads` oracle (never consulted: the fixture payloads have empty
part bodies). -/
def jl0 : List Char → Option JVal := fun _ => none

/-- A bare GET sub-request. -/
def reqC9 : BatchRequest :=
  { request_id := "r1", method := BatchRequestType.get, url := "/a"
    headers := [], body := none, timeout := none }

/-- A POST sub-request that even carries its id in an `X-Request-ID` header. -/
def reqC9b : BatchRequest :=
  { request_id := "r2", method := BatchRequestType.post, url := "/b"
    headers := [ ("X-Request-ID", "r2") ], body := none, timeout := none }

/-- The exact payload `create_batch_payload` produces for `[reqC9]`: note the
bare `"\n"` line endings inside the part. -/
def payloadC9 : String :=
  "--batch_boundary\nContent-Type: application/http\n\nGET /a HTTP/1.1\nContent-Length: 0\n\n\r\n--batch_boundary--"

/-- The exact payload `create_batch_payload` produces for `[reqC9, reqC9b]`. -/
def payloadC9b : String :=
  "--batch_boundary\nContent-Type: application/http\n\nGET /a HTTP/1.1\nContent-Length: 0\n\n\r\n--batch_boundary\nContent-Type: application/http\n\nPOST /b HTTP/1.1\nX-Request-ID: r2\r\nContent-Length: 0\n\n\r\n--batch_boundary--"

/-- A well-formed batch *response* payload whose single part carries an
`X-Request-ID` header. -/
def respWithHeader : String :=
  "--batch_boundary\r\nContent-Type: application/http\r\n\r\nHTTP/1.1 200 OK\r\nX-Request-ID: r1\r\n\r\n\r\n--batch_boundary--"

/-- A well-formed batch *response* payload whose single part carries no
headers at all. -/
def respNoHeader : String :=
  "--batch_boundary\r\nContent-Type: application/http\r\n\r\nHTTP/1.1 200 OK\r\n\r\n\r\n--batch_boundary--"

/-! ## Helper lemmas -/

lemma pyIntOfRat_nonneg {q : ℚ} (h : 0 ≤ q) : 0 ≤ pyIntOfRat q := by
  unfold pyIntOfRat
  rw [if_pos h]
  exact Int.le_floor.mpr (by exact_mod_cast h)

lemma refill_tokens_tokens_eq (config : RateLimitConfig) (s : BucketState) (now : ℚ) :
    (refill_tokens config s now).tokens =
      if config.window_size ≤ now - s.last_refill then
        min config.burst_limit
          (s.tokens + pyIntOfRat ((now - s.last_refill) * (config.requests_per_second : ℚ)))
      else s.tokens := by
  by_cases hc : config.window_size ≤ now - s.last_refill
  · simp only [refill_tokens, if_pos hc]
    by_cases hw : config.window_size ≤ now - s.window_start <;> simp [hw]
  · simp only [refill_tokens, if_neg hc]

lemma refill_tokens_bounds (config : RateLimitConfig) (s : BucketState) (now : ℚ)
    (hrps : 0 ≤ config.requests_per_second) (hburst : 0 ≤ config.burst_limit)
    (hws : 0 < config.window_size)
    (h : 0 ≤ s.tokens ∧ s.tokens ≤ config.burst_limit) :
    0 ≤ (refill_tokens config s now).tokens ∧
      (refill_tokens config s now).tokens ≤ config.burst_limit := by
  rw [refill_tokens_tokens_eq]
  by_cases hc : config.window_size ≤ now - s.last_refill
  · have hq : (0 : ℚ) ≤ (now - s.last_refill) * (config.requests_per_second : ℚ) :=
      mul_nonneg (le_trans hws.le hc) (by exact_mod_cast hrps)
    have hn := pyIntOfRat_nonneg hq
    simp only [if_pos hc]
    omega
  · simp only [if_neg hc]
    exact h

lemma acquire_step_tokens_eq (config : RateLimitConfig) (s : BucketState) (now : ℚ) :
    (acquire_step config s now).1.tokens =
      if 0 < (refill_tokens config s now).tokens then
        (refill_tokens config s now).tokens - 1
      else (refill_tokens config s now).tokens := by
  simp only [acquire_step]
  by_cases hp : 0 < (refill_tokens config s now).tokens <;> simp [hp]

lemma acquire_step_bounds (config : RateLimitConfig) (s : BucketState) (now : ℚ)
    (hrps : 0 ≤ config.requests_per_second) (hburst : 0 ≤ config.burst_limit)
    (hws : 0 < config.window_size)
    (h : 0 ≤ s.tokens ∧ s.tokens ≤ config.burst_limit) :
    0 ≤ (acquire_step config s now).1.tokens ∧
      (acquire_step config s now).1.tokens ≤ config.burst_limit := by
  have hr := refill_tokens_bounds config s now hrps hburst hws h
  rw [acquire_step_tokens_eq]
  by_cases hp : 0 < (refill_tokens config s now).tokens
  · simp only [if_pos hp]
    omega
  · simp only [if_neg hp]
    exact hr

lemma runLimiter_bounds (config : RateLimitConfig)
    (hrps : 0 ≤ config.requests_per_second) (hburst : 0 ≤ config.burst_limit)
    (hws : 0 < config.window_size) (ops : List LimiterOp) :
    ∀ s : BucketState, 0 ≤ s.tokens ∧ s.tokens ≤ config.burst_limit →
      0 ≤ (runLimiter config s ops).tokens ∧
        (runLimiter config s ops).tokens ≤ config.burst_limit := by
  induction ops with
  | nil => intro s h; exact h
  | cons op ops ih =>
    intro s h
    cases op with
    | refillOp t =>
      exact ih (refill_tokens config s t) (refill_tokens_bounds config s t hrps hburst hws h)
    | acquireOp t =>
      exact ih (acquire_step config s t).1 (acquire_step_bounds config s t hrps hburst hws h)

/-! ## C4: refill behaviour -/

/-- C4 counterexample.  The claim says a refill after idle time `Δt` adds
exactly `min(burstLimit - availableTokens, Δt * requestsPerSecond)` tokens and
is continuous in elapsed time, not gated on a fixed tick.  With the default
configuration (`requestsPerSecond = 10`, `burstLimit = 20`,
`windowSize = 1.0`), an empty bucket refilled `Δt = 1/2` after `lastRefill`
gains 0 tokens, while the claimed formula demands
`min(20 - 0, 1/2 * 10) = 5`: the code's refill is gated on
`time_passed >= window_size` (rate_limiter.py line 78). -/
theorem refill_capped_continuous_counterexample :
    (refill_tokens defaultRateLimitConfig bstC4 (1/2)).tokens = 0 ∧
      ((1 : ℚ)/2 - bstC4.last_refill) * (defaultRateLimitConfig.requests_per_second : ℚ) = 5 ∧
      min ((defaultRateLimitConfig.burst_limit : ℚ) - (bstC4.tokens : ℚ)) 5 = 5 := by
  refine ⟨?_, ?_, ?_⟩
  · norm_num [refill_tokens, defaultRateLimitConfig, bstC4]
  · norm_num [defaultRateLimitConfig, bstC4]
  · norm_num [defaultRateLimitConfig, bstC4, min_def]

/-- C4 amended: a refill changes the token count only when the elapsed time
since `lastRefill` is at least `windowSize`; in that case it adds exactly
`min(burstLimit - availableTokens, int(Δt * requestsPerSecond))` tokens
(truncating the product to an integer), and otherwise it adds nothing — so
tokens accrued during an idle period are capped at `burstLimit`, but elapsed
time below `windowSize` earns no tokens at all. -/
theorem refill_tokens_amended (config : RateLimitConfig) (s : BucketState) (now : ℚ) :
    (refill_tokens config s now).tokens - s.tokens =
      if config.window_size ≤ now - s.last_refill then
        min (config.burst_limit - s.tokens)
          (pyIntOfRat ((now - s.last_refill) * (config.requests_per_second : ℚ)))
      else 0 := by
  rw [refill_tokens_tokens_eq]
  by_cases hc : config.window_size ≤ now - s.last_refill
  · simp only [if_pos hc]
    omega
  · simp only [if_neg hc]
    omega

/-! ## C6: token-count invariant -/

/-- C6: for every well-formed `RateLimitConfig` (non-negative rate and burst
limit, positive window — the spec's constructor invariants) and every finite
sequence of `acquire_token` polls and refills at arbitrary wall-clock
times, the bucket's token count stays within `0 ≤ tokens ≤ burstLimit`. -/
theorem acquire_refill_tokens_in_range (config : RateLimitConfig)
    (hrps : 0 ≤ config.requests_per_second) (hburst : 0 ≤ config.burst_limit)
    (hws : 0 < config.window_size) (t0 : ℚ) (ops : List LimiterOp) :
    0 ≤ (runLimiter config (initBucket config t0) ops).tokens ∧
      (runLimiter config (initBucket config t0) ops).tokens ≤ config.burst_limit :=
  runLimiter_bounds config hrps hburst hws ops (initBucket config t0)
    ⟨hburst, le_refl _⟩

/-- Witness for C6 at the default configuration and a concrete schedule of
acquires and refills. -/
theorem acquire_refill_tokens_in_range_witness :
    0 ≤ (runLimiter defaultRateLimitConfig (initBucket defaultRateLimitConfig 0)
          [ LimiterOp.acquireOp 2, LimiterOp.refillOp 5, LimiterOp.acquireOp 7 ]).tokens ∧
      (runLimiter defaultRateLimitConfig (initBucket defaultRateLimitConfig 0)
          [ LimiterOp.acquireOp 2, LimiterOp.refillOp 5, LimiterOp.acquireOp 7 ]).tokens ≤
        defaultRateLimitConfig.burst_limit :=
  acquire_refill_tokens_in_range defaultRateLimitConfig (by decide) (by decide)
    (by decide) 0 [ LimiterOp.acquireOp 2, LimiterOp.refillOp 5, LimiterOp.acquireOp 7 ]

/-! ## C1: retry classification -/

lemma should_retry_true (config : RetryConfig) (e : PyErr) (status : Option Int) :
    should_retry config e status = true := by
  unfold should_retry
  split
  · rfl
  · cases e <;> rfl

/-- C1 counterexample.  The claim says `should_retry` returns `false` for
every error kind that is not transient-transport (connection, timeout,
generic I/O) when the status code is absent.  `ValueError` is such a kind,
yet the code returns `true` for it, because the `retryable_error_types`
tuple ends in the catch-all `Exception` ("Generic fallback",
rate_limiter.py line 235). -/
theorem should_retry_counterexample :
    should_retry defaultRetryConfig PyErr.valueError none = true := by
  decide

/-- C1 amended: `should_retry` returns `true` for a status code in the
configured retryable set and for transient-transport error kinds — but also
for every other `Exception` kind, because the `isinstance` tuple includes
`Exception` itself; hence it returns `true` unconditionally, and no error
propagates from `execute_with_retry` on its first occurrence (with
`max_retries >= 1`, a work unit that fails once with any error kind and
succeeds on the second attempt returns that success after 2 attempts). -/
theorem should_retry_amended :
    (∀ (config : RetryConfig) (e : PyErr) (status : Option Int),
      should_retry config e status = true) ∧
    (∀ (config : RetryConfig) (work : Nat → Except PyErr Int) (e : PyErr) (v : Int),
      1 ≤ config.max_retries → work 1 = Except.error e → work 2 = Except.ok v →
      execute_with_retry config work = (Except.ok v, 2)) := by
  constructor
  · exact fun config e status => should_retry_true config e status
  · intro config work e v hmax h1 h2
    obtain ⟨m, hm⟩ : ∃ m, config.max_retries = m + 1 :=
      ⟨config.max_retries - 1, by omega⟩
    unfold execute_with_retry
    rw [hm]
    simp only [retryGo, h1, h2, should_retry_true, hm]
    norm_num

/-- Witness for C1's amended claim: a work unit that fails with `ValueError`
on attempt 1 and succeeds on attempt 2 is retried under the default
configuration. -/
theorem should_retry_amended_witness :
    execute_with_retry defaultRetryConfig
        (fun n => if n = 1 then Except.error PyErr.valueError else (Except.ok 7 : Except PyErr Int)) =
      (Except.ok 7, 2) :=
  should_retry_amended.2 defaultRetryConfig
    (fun n => if n = 1 then Except.error PyErr.valueError else (Except.ok 7 : Except PyErr Int))
    PyErr.valueError 7 (by decide) rfl rfl

/-! ## C7: retry exhaustion -/

lemma retryGo_snd_le {α : Type} (config : RetryConfig) (work : Nat → Except PyErr α) :
    ∀ (fuel attempt : Nat) (last : Option PyErr),
      (retryGo config work fuel attempt last).2 ≤ attempt - 1 + fuel := by
  intro fuel
  induction fuel with
  | zero => intro attempt last; simp [retryGo]
  | succ fuel ih =>
    intro attempt last
    simp only [retryGo]
    cases hw : work attempt with
    | ok v =>
      simp [hw]
      omega
    | error e =>
      simp only [hw]
      split
      · simp
        omega
      · exact le_trans (ih (attempt + 1) (some e)) (by omega)

/-- C7: with `maxRetries = 3` and a work unit that raises a (retryable) error
on every attempt, `execute_with_retry` performs exactly 4 attempts and raises
the error from attempt 4; and in general the number of attempts never
exceeds `maxRetries + 1`. -/
theorem execute_with_retry_exhausts {α : Type} (config : RetryConfig)
    (work : Nat → Except PyErr α) (errf : Nat → PyErr)
    (hmax : config.max_retries = 3)
    (hwork : ∀ n, work n = Except.error (errf n)) :
    execute_with_retry config work = (Except.error (some (errf 4)), 4) ∧
    ∀ (config2 : RetryConfig) (work2 : Nat → Except PyErr α),
      (execute_with_retry config2 work2).2 ≤ config2.max_retries + 1 := by
  constructor
  · unfold execute_with_retry
    rw [hmax]
    simp only [retryGo, hwork, should_retry_true, hmax]
    norm_num
  · intro config2 work2
    exact le_trans (retryGo_snd_le config2 work2 (config2.max_retries + 1) 1 none)
      (by omega)

/-- Witness for C7: a work unit that always raises `OSError` under the
default configuration (`max_retries = 3`). -/
theorem execute_with_retry_exhausts_witness :
    execute_with_retry defaultRetryConfig
        (fun _ => (Except.error PyErr.osError : Except PyErr Int)) =
      (Except.error (some PyErr.osError), 4) :=
  (execute_with_retry_exhausts defaultRetryConfig
    (fun _ => (Except.error PyErr.osError : Except PyErr Int))
    (fun _ => PyErr.osError) rfl (fun _ => rfl)).1

/-! ## C2: handle_webhook outcomes -/

/-- C2 counterexample.  The claim says the success outcome carries the status
code 200.  On a concrete request that verifies (no signature header) and
parses, `handle_webhook` returns `{"status": "success", "event_processed":
True}`: its `status` key holds the *string* `"success"` and no key of the
response holds the integer 200. -/
theorem handle_webhook_success_counterexample :
    (handle_webhook extConc wstConc bodyEmptyObj []).1 = successResponse ∧
      ((handle_webhook extConc wstConc bodyEmptyObj []).1.all
        (fun p => p.2 != PyVal.pint 200)) = true := by
  exact ⟨rfl, rfl⟩

/-- C2 amended: `handle_webhook` never raises and always returns exactly one
of the structured outcomes: success (`{"status": "success",
"event_processed": True}` — a status *string*, not the code 200),
invalid-signature with status code 401, or parse-failure with status code
400; the internal-error outcome with status code 500 exists in the source
only as the outer catch-all `except Exception` and is unreachable in this
pure embedding. -/
theorem handle_webhook_amended (ext : Externals) (st : WebhookState)
    (body : RawBody) (headers : List (String × String)) :
    (handle_webhook ext st body headers).1 = successResponse ∨
      (handle_webhook ext st body headers).1 = invalidSignatureResponse ∨
      (handle_webhook ext st body headers).1 = parseFailureResponse := by
  unfold handle_webhook
  split
  · exact Or.inr (Or.inl rfl)
  · unfold parse_and_dispatch
    cases hp : parse_webhook ext body with
    | none => exact Or.inr (Or.inr rfl)
    | some ev => exact Or.inl rfl

/-! ## C3: unknown event types -/

/-- C3 counterexample.  The claim says a JSON body whose `event_type` string
is not a fixed variant parses to an event whose `eventType` is an explicit
"unrecognized" variant and is never a silently-swallowed null.  On the body
`{"event_type": "bogus"}` the parse succeeds but the resulting event's
`event_type` is `None` (webhook_handler.py line 158); the enum has no
"unrecognized" member at all. -/
theorem parse_webhook_unknown_counterexample :
    (parse_webhook extConc bodyC3).map (fun ev => ev.event_type) = some none ∧
      webhookEventTypeOfString "bogus" = none := by
  exact ⟨rfl, rfl⟩

/-- C3 amended: for every JSON-object body whose `event_type` value is a
string that matches no fixed variant (and whose `timestamp` value, if
present, is a string, so no unrelated failure intervenes), `parse_webhook`
succeeds — but the produced event's `eventType` field is `None` (the unknown
string is logged and replaced by null), not an explicit "unrecognized"
variant. -/
theorem parse_webhook_unknown_amended (ext : Externals) (txt : String)
    (data : List (String × JVal)) (s ts : String)
    (hev : jObjGetD data "event_type" (JVal.jstr "") = JVal.jstr s)
    (hunk : webhookEventTypeOfString s = none)
    (hts : jObjGetD data "timestamp" (JVal.jstr "") = JVal.jstr ts) :
    parse_webhook ext { text := txt, json := some (JVal.jobj data) } =
      some { event_type := none
             resource_id := jObjGetD data "resource_id" (JVal.jstr "")
             resource_uri := jObjGetD data "resource_uri" (JVal.jstr "")
             timestamp := (ext.fromisoformat (ts.replace "Z" "+00:00")).getD ext.utcnow
             payload := jObjGetD data "payload" (JVal.jobj [])
             user_id := jObjGet data "user_id"
             domain := jObjGet data "domain" } := by
  unfold parse_webhook
  simp only [hev, hts, hunk]

/-- Witness for C3's amended claim on the body
`{"event_type": "zzz"}` (no timestamp key, so the default `""` is used). -/
theorem parse_webhook_unknown_amended_witness :
    parse_webhook extConc
        { text := "\x7b\"event_type\": \"zzz\"\x7d"
          json := some (JVal.jobj [ ("event_type", JVal.jstr "zzz") ]) } =
      some { event_type := none
             resource_id := jObjGetD [ ("event_type", JVal.jstr "zzz") ] "resource_id" (JVal.jstr "")
             resource_uri := jObjGetD [ ("event_type", JVal.jstr "zzz") ] "resource_uri" (JVal.jstr "")
             timestamp := (extConc.fromisoformat ("".replace "Z" "+00:00")).getD extConc.utcnow
             payload := jObjGetD [ ("event_type", JVal.jstr "zzz") ] "payload" (JVal.jobj [])
             user_id := jObjGet [ ("event_type", JVal.jstr "zzz") ] "user_id"
             domain := jObjGet [ ("event_type", JVal.jstr "zzz") ] "domain" } :=
  parse_webhook_unknown_amended extConc "\x7b\"event_type\": \"zzz\"\x7d"
    [ ("event_type", JVal.jstr "zzz") ] "zzz" "" rfl rfl rfl

/-! ## C10: missing signature header skips verification -/

/-- C10: for every external oracle (in particular, every HMAC function),
every handler state (so every configured secret) and every request body, if
the `X-Goog-Signature` header is missing or empty then `handle_webhook` is
exactly the shared parse-and-dispatch path — no verification is consulted —
and the 401 invalid-signature outcome is impossible. -/
theorem handle_webhook_no_signature (ext : Externals) (st : WebhookState)
    (body : RawBody) (headers : List (String × String))
    (h : headersGetD headers "X-Goog-Signature" "" = "") :
    handle_webhook ext st body headers = parse_and_dispatch ext st body ∧
      (handle_webhook ext st body headers).1 ≠ invalidSignatureResponse := by
  have h1 : handle_webhook ext st body headers = parse_and_dispatch ext st body := by
    unfold handle_webhook
    rw [h]
    simp
  refine ⟨h1, ?_⟩
  rw [h1]
  unfold parse_and_dispatch
  cases hp : parse_webhook ext body with
  | none =>
    show parseFailureResponse ≠ invalidSignatureResponse
    decide
  | some ev =>
    show successResponse ≠ invalidSignatureResponse
    decide

/-- Witness for C10 with an explicitly present but empty signature header. -/
theorem handle_webhook_no_signature_witness :
    handle_webhook extConc wstConc bodyEmptyObj [ ("X-Goog-Signature", "") ] =
        parse_and_dispatch extConc wstConc bodyEmptyObj ∧
      (handle_webhook extConc wstConc bodyEmptyObj [ ("X-Goog-Signature", "") ]).1 ≠
        invalidSignatureResponse :=
  handle_webhook_no_signature extConc wstConc bodyEmptyObj
    [ ("X-Goog-Signature", "") ] rfl

/-! ## C8: signature verification -/

/-- C8: with a configured (non-empty) secret, `verify_webhook` accepts
exactly the hex HMAC-SHA256 of the body under that secret: it returns `true`
on the matching signature; `false` on any mutated body whose HMAC differs
from the original's (which is the point of a single-bit mutation, granted
the HMAC oracle distinguishes the two inputs); `false` on any mutated
signature; and `false` for every unsupported algorithm rather than skipping
verification. -/
theorem verify_webhook_correct (ext : Externals) (secret body : String)
    (hsec : secret ≠ "") :
    verify_webhook ext (some secret) body (ext.hmac_sha256_hex secret body) "sha256" = true ∧
      (∀ body2 : String,
        ext.hmac_sha256_hex secret body2 ≠ ext.hmac_sha256_hex secret body →
        verify_webhook ext (some secret) body2 (ext.hmac_sha256_hex secret body) "sha256" = false) ∧
      (∀ sig2 : String, sig2 ≠ ext.hmac_sha256_hex secret body →
        verify_webhook ext (some secret) body sig2 "sha256" = false) ∧
      (∀ alg sig : String, pyLower alg ≠ "sha256" →
        verify_webhook ext (some secret) body sig alg = false) := by
  have hl : pyLower "sha256" = "sha256" := rfl
  refine ⟨?_, ?_, ?_, ?_⟩
  · simp only [verify_webhook, if_neg hsec, if_pos hl]
    exact beq_self_eq_true _
  · intro body2 hne
    simp only [verify_webhook, if_neg hsec, if_pos hl]
    exact beq_eq_false_iff_ne.mpr hne
  · intro sig2 hne
    simp only [verify_webhook, if_neg hsec, if_pos hl]
    exact beq_eq_false_iff_ne.mpr (fun hh => hne hh.symm)
  · intro alg sig halg
    simp only [verify_webhook, if_neg hsec, if_neg halg]

/-- Witness for C8 with the injective pairing HMAC oracle, secret `"k"`,
body `"mm"`: the matching signature verifies; the one-character mutation
`"mn"` of the body fails; a wrong signature fails; the unsupported algorithm
`"md5"` is rejected. -/
theorem verify_webhook_correct_witness :
    verify_webhook extHW (some "k") "mm" (extHW.hmac_sha256_hex "k" "mm") "sha256" = true ∧
      verify_webhook extHW (some "k") "mn" (extHW.hmac_sha256_hex "k" "mm") "sha256" = false ∧
      verify_webhook extHW (some "k") "mm" "oops" "sha256" = false ∧
      verify_webhook extHW (some "k") "mm" "whatever" "md5" = false := by
  have h := verify_webhook_correct extHW "k" "mm" (by decide)
  exact ⟨h.1, h.2.1 "mn" (by decide), h.2.2.1 "oops" (by decide),
    h.2.2.2 "md5" "whatever" (by decide)⟩

/-! ## C5: credential loads on missing vs corrupt files -/

/-- C5 counterexample.  The claim says a corrupt or undecryptable credential
file is reported as a `StorageError`, distinct from "not found".  In the
code both outcomes are the same value: `load_tokens` returns `None` for a
missing file *and* for an existing file whose envelope fails to decrypt (the
`except Exception` clause at token_manager.py lines 165-169 swallows
`InvalidToken`); no `StorageError` result exists anywhere in the source. -/
theorem load_tokens_corrupt_counterexample :
    EncryptedTokenBackend.load_tokens encCorruptExt "alice" = none ∧
      EncryptedTokenBackend.load_tokens encMissingExt "alice" = none ∧
      encCorruptExt.read_file (enc_file_path "alice") = some [ 0 ] ∧
      encCorruptExt.fernet_decrypt [ 0 ] = none := by
  exact ⟨rfl, rfl, rfl, rfl⟩

/-- C5 amended: a load of a missing file returns `None` ("not found", not an
error) for both backends — and a load of a file whose contents are corrupt
or undecryptable *also* returns `None`: the failure is logged but the result
is indistinguishable from "not found"; no distinct `StorageError` result is
ever produced. -/
theorem load_tokens_amended :
    (∀ (ext : EncBackendExt) (uid : String),
      ext.read_file (enc_file_path uid) = none →
      EncryptedTokenBackend.load_tokens ext uid = none) ∧
    (∀ (ext : EncBackendExt) (uid : String) (data : List Nat),
      ext.read_file (enc_file_path uid) = some data →
      ext.fernet_decrypt data = none →
      EncryptedTokenBackend.load_tokens ext uid = none) ∧
    (∀ (ext : FileBackendExt) (uid : String),
      ext.read_file (json_file_path uid) = none →
      FileTokenBackend.load_tokens ext uid = none) ∧
    (∀ (ext : FileBackendExt) (uid : String) (contents : String),
      ext.read_file (json_file_path uid) = some contents →
      ext.json_loads contents = none →
      FileTokenBackend.load_tokens ext uid = none) := by
  refine ⟨?_, ?_, ?_, ?_⟩
  · intro ext uid h
    unfold EncryptedTokenBackend.load_tokens
    rw [h]
  · intro ext uid data h hd
    unfold EncryptedTokenBackend.load_tokens
    rw [h]
    simp only [hd]
  · intro ext uid h
    unfold FileTokenBackend.load_tokens
    rw [h]
  · intro ext uid contents h hj
    unfold FileTokenBackend.load_tokens
    rw [h]
    simp only [hj]

/-- Witness for C5's amended claim: missing and corrupt loads on both
backends, at concrete worlds. -/
theorem load_tokens_amended_witness :
    EncryptedTokenBackend.load_tokens encMissingExt "carol" = none ∧
      EncryptedTokenBackend.load_tokens encCorruptExt "alice" = none ∧
      FileTokenBackend.load_tokens fileMissingExt "bob" = none ∧
      FileTokenBackend.load_tokens fileCorruptExt "bob" = none :=
  ⟨load_tokens_amended.1 encMissingExt "carol" rfl,
   load_tokens_amended.2.1 encCorruptExt "alice" [ 0 ] rfl rfl,
   load_tokens_amended.2.2.1 fileMissingExt "bob" rfl,
   load_tokens_amended.2.2.2 fileCorruptExt "bob" "not json" rfl rfl⟩

/-! ## C9: batch round trip -/

/-- C9 counterexample.  The claim says decoding the payload produced by
encoding a non-empty sub-request list (echoed back unchanged) yields one
response per sub-request, preserving `requestId`, `method` and `body`.  For
the single sub-request `reqC9` the encoder produces `payloadC9`, and the
parser returns the *empty* list on it: the encoder's parts use bare `"\n"`
line endings and HTTP request lines, while the parser splits on `"\r\n"`
(so its boundary line is the entire first part) and then requires a parsable
status code after `HTTP/1.1`, which a request line does not have. -/
theorem batch_roundtrip_counterexample :
    create_batch_payload jd0 [ reqC9 ] = Except.ok payloadC9 ∧
      parse_batch_response jl0 payloadC9.data = [] := by
  exact ⟨rfl, rfl⟩

set_option maxRecDepth 16384 in
/-- C9 amended: decoding the payload produced by encoding yields no
responses at all — even when a sub-request carries its id in an
`X-Request-ID` header — so nothing of `requestId`, `method` or `body` is
preserved through the round trip; the header/positional `requestId` rule
does hold for well-formed batch *response* payloads: a decoded entry takes
its `requestId` from the `X-Request-ID` response header when present, else
the positional fallback `req_<index>`. -/
theorem batch_parse_amended :
    create_batch_payload jd0 [ reqC9, reqC9b ] = Except.ok payloadC9b ∧
      parse_batch_response jl0 payloadC9b.data = [] ∧
      parse_batch_response jl0 respWithHeader.data =
        [ { request_id := "r1".data, status_code := 200
            headers := [ ("X-Request-ID".data, "r1".data) ]
            body := PBody.noneB, error := none } ] ∧
      parse_batch_response jl0 respNoHeader.data =
        [ { request_id := "req_0".data, status_code := 200, headers := []
            body := PBody.noneB, error := none } ] := by
  exact ⟨rfl, rfl, rfl, rfl⟩

end GSpace
